import Mathlib

/-!
Verification development for the threaded GOAD deployment orchestrator
(`ansible/scripts/deploy-goad-threaded.py`).

The development shallowly embeds the deployment engine:

* `Box` mirrors `DeploymentBox`: the per-target mutable record (status,
  attempts, start/end timestamps modelled as "is set" flags, captured
  stdout/stderr lines, log-file flag).
* `deployLoop` mirrors the body of `GOADDeployer.deploy_goad_on_box`
  after the semaphore acquisition: the `while attempt < self.max_retries
  and not success` retry loop, with each attempt's outcome (process exit
  code plus captured output, `subprocess.TimeoutExpired`, or an
  unexpected exception) supplied by a script `Nat → AttemptOutcome`
  indexed by the 1-based attempt number.  The function also returns a
  trace of the intermediate box states visible under the shared lock,
  so that invariants "at every point in a run" can be stated.
* `SchedState`/`SchedStep` embed the semaphore admission discipline of
  `deploy_goad_on_box` (`self.semaphore.acquire()` at entry,
  `self.semaphore.release()` in `finally`) together with thread launch.
* `deploy_all0` mirrors `GOADDeployer.deploy_all` and `main`: inventory
  parsing outcome, the two best-effort pre-stages, the critical
  `prepare_deployment_boxes` stage, the fan-out, and the process exit
  code.
* The summary counters and the failure digest mirror
  `GOADDeployer.print_summary`.
-/

namespace GoadDeploy

/-- Target status strings used by the script, plus the `retrying`
transient state named by the specification's state machine (the script
itself never assigns it). -/
inductive Status where
  | pending
  | running
  | retrying
  | success
  | failed
  | timedout
  | errored
deriving DecidableEq, Repr

/-- Terminal statuses per the spec: `success`, `failed`, `timeout`,
`error`. -/
def Status.isTerminal : Status → Bool
  | .success => true
  | .failed => true
  | .timedout => true
  | .errored => true
  | _ => false

/-- Outcome of one attempt's `subprocess.run(ssh_cmd, ...)` call:
either the process completed with a return code and captured
stdout/stderr (already split into lines, as the script does with
`.split('\n')`), or it raised `subprocess.TimeoutExpired`, or some
other unexpected exception escaped (caught by the outer
`except Exception`). -/
inductive AttemptOutcome where
  | exited (returncode : Int) (stdout stderr : List String)
  | timedOut
  | raised
deriving DecidableEq, Repr

/-- Mirror of `DeploymentBox`: `start_time`/`end_time` are modelled by
whether they are set (`None` vs. a timestamp), which is all the claims
need. `log_file` likewise. -/
structure Box where
  status : Status := .pending
  attempts : Nat := 0
  startTimeSet : Bool := false
  endTimeSet : Bool := false
  output : List String := []
  errorOutput : List String := []
  logFileSet : Bool := false
deriving DecidableEq, Repr

/-- The freshly constructed `DeploymentBox`: status `"pending"`,
`attempts = 0`, no timestamps, empty output buffers, no log file. -/
def initBox : Box := {}

/-- The retry loop of `deploy_goad_on_box`, lines 393-494 of the
script.  `rem` is the number of loop iterations still permitted, i.e.
`max_retries - attempt`; the loop guard `attempt < self.max_retries`
is the pattern match on `rem`, and the in-body test
`attempt < self.max_retries` (after `attempt += 1`) is `0 < rem`.
Returns the trace of box states as observed under `self.lock`
(one snapshot when the attempt is marked running, one after each
attempt's result is recorded) together with the final box state.

Per attempt (1-based number `a = attempt + 1`, outcome `script a`):
* mark `status = "running"`, set `start_time` if unset, `attempts = a`;
* `exited rc out err`: set `end_time`; if `rc = 0` set `"success"` and
  stop; otherwise record `error_output := err`, and if more attempts
  remain just sleep and loop (status stays `"running"`), else set
  `"failed"`; in every exited case record `output := out`;
* `timedOut`: if more attempts remain, sleep and loop (box unchanged);
  else set `"timeout"` and `end_time`;
* `raised`: the exception escapes to the outer handler, which sets
  `"error"` and `end_time` and ends the task. -/
def deployLoop (script : Nat → AttemptOutcome) :
    Nat → Nat → Box → List Box × Box
  | 0, _, b => ([], b)
  | rem + 1, attempt, b =>
    let a := attempt + 1
    let b1 : Box :=
      { b with attempts := a, status := .running, startTimeSet := true }
    match script a with
    | .exited rc out err =>
      let b2 : Box := { b1 with endTimeSet := true }
      if rc = 0 then
        let b3 : Box := { b2 with status := .success, output := out }
        ([b1, b3], b3)
      else
        let b2e : Box := { b2 with errorOutput := err }
        if 0 < rem then
          let b3 : Box := { b2e with output := out }
          let rest := deployLoop script rem a b3
          (b1 :: b3 :: rest.1, rest.2)
        else
          let b3 : Box := { b2e with status := .failed, output := out }
          ([b1, b3], b3)
    | .timedOut =>
      if 0 < rem then
        let rest := deployLoop script rem a b1
        (b1 :: rest.1, rest.2)
      else
        let b3 : Box := { b1 with status := .timedout, endTimeSet := true }
        ([b1, b3], b3)
    | .raised =>
      let b3 : Box := { b1 with status := .errored, endTimeSet := true }
      ([b1, b3], b3)

/-- One target's whole task body (`deploy_goad_on_box` between
semaphore acquire and release): the log file for the box is created
first (line 391), then the retry loop runs with `attempt = 0` and up
to `max_retries` iterations. -/
def deployBox (maxRetries : Nat) (script : Nat → AttemptOutcome) :
    List Box × Box :=
  deployLoop script maxRetries 0 { initBox with logFileSet := true }

/-- Outcome of one `subprocess.run(['ansible-playbook', ...])`
pre-stage invocation: completed with a return code, raised
`subprocess.TimeoutExpired`, raised `FileNotFoundError`, or raised
some other exception. -/
inductive StageOutcome where
  | completed (returncode : Int)
  | stageTimedOut
  | fileNotFound
  | otherFailure
deriving DecidableEq, Repr

/-- Mirror of `GOADDeployer.activate_windows_hosts` (lines 123-207):
every path returns `True` — success, non-zero return code ("but
continuing..."), timeout, missing playbook, and any other exception
are all non-fatal. -/
def activate_windows_hosts : StageOutcome → Bool
  | .completed _ => true
  | .stageTimedOut => true
  | .fileNotFound => true
  | .otherFailure => true

/-- Mirror of `GOADDeployer.prepare_kali_boxes` (lines 209-300):
best-effort exactly like Windows activation — every path returns
`True`. -/
def prepare_kali_boxes : StageOutcome → Bool
  | .completed _ => true
  | .stageTimedOut => true
  | .fileNotFound => true
  | .otherFailure => true

/-- Mirror of `GOADDeployer.prepare_deployment_boxes` (lines 302-382):
returns `True` only when the playbook exits with return code 0; a
non-zero return code, a timeout, a missing playbook, or any other
exception reaches `sys.exit(1)`, modelled as `Except.error 1`. -/
def prepare_deployment_boxes : StageOutcome → Except Nat Unit
  | .completed rc => if rc = 0 then .ok () else .error 1
  | .stageTimedOut => .error 1
  | .fileNotFound => .error 1
  | .otherFailure => .error 1

/-- Outcome of reading the inventory file in
`GOADDeployer.parse_inventory`: either the file is read and parsed
into the list of deployment targets (each target carrying the script
of its remote-job attempt outcomes, the collaborator boundary
`ListTargets()` of the spec), or reading raises `FileNotFoundError`,
or parsing raises some other exception. -/
inductive InventoryOutcome where
  | parsed (targets : List (Nat → AttemptOutcome))
  | fileNotFound
  | parseFailure

/-- Mirror of the error handling of `GOADDeployer.parse_inventory`
(lines 116-121): both a missing inventory file and any parsing
exception reach `sys.exit(1)`. -/
def parse_inventory :
    InventoryOutcome → Except Nat (List (Nat → AttemptOutcome))
  | .parsed targets => .ok targets
  | .fileNotFound => .error 1
  | .parseFailure => .error 1

/-- Observable outcome of one whole run: the process exit code, and
the final states of the target tasks that were started (empty when
the run aborted before fan-out, or found no targets). -/
structure RunOutcome where
  exitCode : Nat
  boxes : List Box
deriving DecidableEq, Repr

/-- Mirror of `GOADDeployer.deploy_all` (lines 516-558) as invoked
from `main`: parse the inventory (`sys.exit(1)` on failure), return
early when no targets were found, run the two best-effort stages and
the critical preparation stage (`sys.exit(1)` on its failure), then
start one thread per target, join them all, and print the summary.
The fan-out is modelled target by target: each target's final box
state depends only on its own attempt script, so the thread
interleaving does not affect the final states (the concurrency bound
itself is modelled separately by `SchedStep`).  A normal return from
`deploy_all` makes `main` return and the process exit with code 0. -/
def deploy_all (inv : InventoryOutcome) (stageWindows stageKali
    stagePrepare : StageOutcome) (maxRetries : Nat) : RunOutcome :=
  match parse_inventory inv with
  | .error c => ⟨c, []⟩
  | .ok targets =>
    if targets.isEmpty then ⟨0, []⟩
    else
      let _ := activate_windows_hosts stageWindows
      let _ := prepare_kali_boxes stageKali
      match prepare_deployment_boxes stagePrepare with
      | .error c => ⟨c, []⟩
      | .ok _ => ⟨0, targets.map fun script => (deployBox maxRetries script).2⟩

/-- Count of boxes with status `"success"` (`print_summary`,
line 562). -/
def successCount (boxes : List Box) : Nat :=
  (boxes.filter fun b => b.status = .success).length

/-- Count of boxes with status `"failed"` (`print_summary`,
line 563). -/
def failedCount (boxes : List Box) : Nat :=
  (boxes.filter fun b => b.status = .failed).length

/-- Count of boxes with status `"timeout"` (`print_summary`,
line 564). -/
def timeoutCount (boxes : List Box) : Nat :=
  (boxes.filter fun b => b.status = .timedout).length

/-- Count of boxes with status `"error"` (`print_summary`,
line 565). -/
def errorCount (boxes : List Box) : Nat :=
  (boxes.filter fun b => b.status = .errored).length

/-- One line of the failure digest printed by `print_summary` for a
non-success terminal box (lines 587-594): status, attempt count, a
duration (0 when the timestamps are unset), the first line of
`error_output` truncated to 100 characters — printed only when
`error_output` is non-empty (`if box.error_output:`) — and the log
file path, printed only when `log_file` is set. -/
structure DigestEntry where
  status : Status
  attempts : Nat
  errorPreview : Option String
  logFileShown : Bool
deriving DecidableEq, Repr

/-- First line of a box's captured error output, truncated to 100
characters, when any error output was captured (`print_summary`,
lines 591-592). -/
def firstErrorLine (b : Box) : Option String :=
  match b.errorOutput with
  | [] => none
  | l :: _ => some (l.take 100)

/-- The failure digest of `print_summary` (lines 585-595): printed
only when at least one box is failed, timed out, or errored; it then
lists exactly the boxes whose status is in
`["failed", "timeout", "error"]`, in inventory order. -/
def failureDigest (boxes : List Box) : List DigestEntry :=
  if 0 < failedCount boxes + timeoutCount boxes + errorCount boxes then
    (boxes.filter fun b =>
        b.status = .failed ∨ b.status = .timedout ∨ b.status = .errored).map
      fun b => ⟨b.status, b.attempts, firstErrorLine b, b.logFileSet⟩
  else []

/-! ### Admission scheduling

`deploy_all` starts one `threading.Thread` per target (line 545); each
thread runs `deploy_goad_on_box`, which calls
`self.semaphore.acquire()` as its very first statement (line 386) and
`self.semaphore.release()` in its `finally` block (line 514), with the
whole retry loop — all attempts and the `time.sleep(10)` backoffs —
in between.  `SchedStep` embeds exactly this discipline as a
small-step interleaving relation over the threads' phases and the
semaphore counter. -/

/-- Phase of one target's thread: not yet started by the main loop,
blocked in `semaphore.acquire()`, holding an admission slot while its
retry loop runs (`work` counts the internal steps taken — attempts,
sleeps), or finished after `semaphore.release()`. -/
inductive ThreadPhase where
  | notStarted
  | waitingSlot
  | holdingSlot (work : Nat)
  | finished
deriving DecidableEq, Repr

/-- Contribution of one thread phase to the number of held admission
slots. -/
def holdBit : ThreadPhase → Nat
  | .holdingSlot _ => 1
  | _ => 0

/-- Global scheduler state for a run with `N` targets: each thread's
phase and the current value of the counting semaphore
`threading.Semaphore(max_threads)`. -/
structure SchedState (N : Nat) where
  phase : Fin N → ThreadPhase
  sem : Nat

/-- Number of targets currently holding an admission slot. -/
def holdingCount {N : Nat} (s : SchedState N) : Nat :=
  ∑ i, holdBit (s.phase i)

/-- Initial scheduler state: no thread started, semaphore at its
initial value `K` (`threading.Semaphore(max_threads)`, line 58). -/
def schedInit (N K : Nat) : SchedState N :=
  ⟨fun _ => .notStarted, K⟩

/-- One interleaving step of the run: the main loop starts a thread;
a thread's `semaphore.acquire()` returns (only when the counter is
positive, decrementing it); a thread holding a slot performs one
internal step of its retry loop (attempt, sleep, status update) —
the semaphore is untouched; or a thread reaches its `finally` block
and releases its slot, incrementing the counter. -/
inductive SchedStep {N : Nat} : SchedState N → SchedState N → Prop
  | launch (s : SchedState N) (i : Fin N)
      (h : s.phase i = .notStarted) :
      SchedStep s ⟨Function.update s.phase i .waitingSlot, s.sem⟩
  | acquire (s : SchedState N) (i : Fin N)
      (h : s.phase i = .waitingSlot) (hs : 0 < s.sem) :
      SchedStep s ⟨Function.update s.phase i (.holdingSlot 0), s.sem - 1⟩
  | work (s : SchedState N) (i : Fin N) (k : Nat)
      (h : s.phase i = .holdingSlot k) :
      SchedStep s ⟨Function.update s.phase i (.holdingSlot (k + 1)), s.sem⟩
  | release (s : SchedState N) (i : Fin N) (k : Nat)
      (h : s.phase i = .holdingSlot k) :
      SchedStep s ⟨Function.update s.phase i .finished, s.sem + 1⟩

/-- States reachable in a run with `N` targets and concurrency limit
`K`. -/
def SchedReachable (N K : Nat) (s : SchedState N) : Prop :=
  Relation.ReflTransGen SchedStep (schedInit N K) s

/-- Sum of the slot bits after updating one thread's phase: the
updated thread contributes `holdBit v`, the rest are unchanged. -/
lemma sum_holdBit_update {N : Nat} (f : Fin N → ThreadPhase) (i : Fin N)
    (v : ThreadPhase) :
    ∑ j, holdBit (Function.update f i v j) =
      holdBit v + ∑ j ∈ Finset.univ \ {i}, holdBit (f j) := by
  have hcomp : (fun j => holdBit (Function.update f i v j)) =
      Function.update (fun j => holdBit (f j)) i (holdBit v) := by
    funext j
    by_cases hj : j = i
    · subst hj; simp
    · simp [Function.update_apply, hj]
  calc ∑ j, holdBit (Function.update f i v j)
      = ∑ j, Function.update (fun j => holdBit (f j)) i (holdBit v) j := by
        rw [hcomp]
    _ = holdBit v + ∑ j ∈ Finset.univ \ {i}, holdBit (f j) :=
        Finset.sum_update_of_mem (Finset.mem_univ i) _ _

/-- The semaphore invariant: held slots plus the semaphore counter
always equal the initial budget `K`. -/
def SchedInv {N : Nat} (K : Nat) (s : SchedState N) : Prop :=
  holdingCount s + s.sem = K

lemma schedInv_init (N K : Nat) : SchedInv K (schedInit N K) := by
  simp [SchedInv, holdingCount, schedInit, holdBit]

lemma schedInv_step {N K : Nat} {s s' : SchedState N}
    (hstep : SchedStep s s') (hinv : SchedInv K s) : SchedInv K s' := by
  unfold SchedInv holdingCount at hinv ⊢
  cases hstep with
  | launch i h =>
    have hs := Finset.sum_eq_add_sum_diff_singleton (Finset.mem_univ i)
      fun j => holdBit (s.phase j)
    rw [hs, h] at hinv
    rw [sum_holdBit_update]
    simp [holdBit] at hinv ⊢
    omega
  | acquire i h hsem =>
    have hs := Finset.sum_eq_add_sum_diff_singleton (Finset.mem_univ i)
      fun j => holdBit (s.phase j)
    rw [hs, h] at hinv
    rw [sum_holdBit_update]
    simp [holdBit] at hinv ⊢
    omega
  | work i k h =>
    have hs := Finset.sum_eq_add_sum_diff_singleton (Finset.mem_univ i)
      fun j => holdBit (s.phase j)
    rw [hs, h] at hinv
    rw [sum_holdBit_update]
    simp [holdBit] at hinv ⊢
    omega
  | release i k h =>
    have hs := Finset.sum_eq_add_sum_diff_singleton (Finset.mem_univ i)
      fun j => holdBit (s.phase j)
    rw [hs, h] at hinv
    rw [sum_holdBit_update]
    simp [holdBit] at hinv ⊢
    omega

lemma schedInv_reachable {N K : Nat} {s : SchedState N}
    (h : SchedReachable N K s) : SchedInv K s := by
  have h' : Relation.ReflTransGen SchedStep (schedInit N K) s := h
  clear h
  induction h' with
  | refl => exact schedInv_init N K
  | tail _ hstep ih => exact schedInv_step hstep ih

/-! ### Properties of the retry loop -/

/-- As long as at least one loop iteration is permitted, the retry
loop always ends in a terminal status. -/
lemma deployLoop_terminal (script : Nat → AttemptOutcome) :
    ∀ rem attempt b, 0 < rem →
      ((deployLoop script rem attempt b).2.status).isTerminal = true := by
  intro rem
  induction rem with
  | zero => intro _ _ h; omega
  | succ rem ih =>
    intro attempt b _
    simp only [deployLoop]
    cases hsc : script (attempt + 1) with
    | exited rc out err =>
      by_cases hrc : rc = 0
      · simp [hrc, Status.isTerminal]
      · by_cases hrem : 0 < rem
        · simp only [hrc, hrem, if_true, if_false, if_pos, if_neg]
          simpa using ih (attempt + 1) _ hrem
        · simp [hrc, hrem, Status.isTerminal]
    | timedOut =>
      by_cases hrem : 0 < rem
      · simp only [hrem, if_pos]
        simpa using ih (attempt + 1) _ hrem
      · simp [hrem, Status.isTerminal]
    | raised => simp [Status.isTerminal]

/-- The log-file flag is never cleared by the retry loop. -/
lemma deployLoop_logFile (script : Nat → AttemptOutcome) :
    ∀ rem attempt b,
      (deployLoop script rem attempt b).2.logFileSet = b.logFileSet := by
  intro rem
  induction rem with
  | zero => intro _ _; rfl
  | succ rem ih =>
    intro attempt b
    simp only [deployLoop]
    cases hsc : script (attempt + 1) with
    | exited rc out err =>
      by_cases hrc : rc = 0
      · simp [hrc]
      · by_cases hrem : 0 < rem
        · simp only [hrc, hrem, if_pos, if_neg]
          simpa using ih (attempt + 1) _
        · simp [hrc, hrem]
    | timedOut =>
      by_cases hrem : 0 < rem
      · simp only [hrem, if_pos]
        simpa using ih (attempt + 1) _
      · simp [hrem]
    | raised => simp

/-- When every attempt's process exits with a non-zero return code,
the loop uses every permitted iteration and ends `"failed"`. -/
lemma deployLoop_allFail (script : Nat → AttemptOutcome)
    (hf : ∀ i, ∃ rc out err,
      script i = .exited rc out err ∧ rc ≠ 0) :
    ∀ rem attempt b, 0 < rem →
      (deployLoop script rem attempt b).2.attempts = attempt + rem ∧
        (deployLoop script rem attempt b).2.status = .failed := by
  intro rem
  induction rem with
  | zero => intro _ _ h; omega
  | succ rem ih =>
    intro attempt b _
    obtain ⟨rc, out, err, hsc, hrc⟩ := hf (attempt + 1)
    simp only [deployLoop, hsc]
    rw [if_neg hrc]
    by_cases hrem : 0 < rem
    · rw [if_pos hrem]
      refine ⟨?_, (ih (attempt + 1) _ hrem).2⟩
      rw [(ih (attempt + 1) _ hrem).1]
      omega
    · rw [if_neg hrem]
      exact ⟨by simp; omega, rfl⟩

/-- When every attempt raises `subprocess.TimeoutExpired`, the loop
uses every permitted iteration and ends `"timeout"`. -/
lemma deployLoop_allTimeout (script : Nat → AttemptOutcome)
    (hf : ∀ i, script i = .timedOut) :
    ∀ rem attempt b, 0 < rem →
      (deployLoop script rem attempt b).2.attempts = attempt + rem ∧
        (deployLoop script rem attempt b).2.status = .timedout := by
  intro rem
  induction rem with
  | zero => intro _ _ h; omega
  | succ rem ih =>
    intro attempt b _
    simp only [deployLoop, hf (attempt + 1)]
    by_cases hrem : 0 < rem
    · rw [if_pos hrem]
      refine ⟨?_, (ih (attempt + 1) _ hrem).2⟩
      rw [(ih (attempt + 1) _ hrem).1]
      omega
    · rw [if_neg hrem]
      exact ⟨by simp; omega, rfl⟩

/-- When the first attempt raises an unexpected exception, the task
ends immediately after that single attempt with status `"error"`,
whatever the remaining retry budget. -/
lemma deployLoop_raisedFirst (script : Nat → AttemptOutcome)
    (rem attempt : Nat) (b : Box) (h1 : script (attempt + 1) = .raised)
    (hrem : 0 < rem) :
    (deployLoop script rem attempt b).2.attempts = attempt + 1 ∧
      (deployLoop script rem attempt b).2.status = .errored := by
  cases rem with
  | zero => omega
  | succ rem => simp [deployLoop, h1]

/-- No state of the retry loop — neither an intermediate snapshot nor
the final state (unless it is the untouched input box) — ever carries
the status `"retrying"`: the script never assigns it. -/
lemma deployLoop_no_retry (script : Nat → AttemptOutcome) :
    ∀ rem attempt b,
      (∀ x ∈ (deployLoop script rem attempt b).1, x.status ≠ .retrying) ∧
        ((deployLoop script rem attempt b).2.status ≠ .retrying ∨
          (deployLoop script rem attempt b).2 = b) := by
  intro rem
  induction rem with
  | zero =>
    intro attempt b
    exact ⟨by intro x hx; simp [deployLoop] at hx, Or.inr rfl⟩
  | succ rem ih =>
    intro attempt b
    cases hsc : script (attempt + 1) with
    | exited rc out err =>
      simp only [deployLoop, hsc]
      by_cases hrc : rc = 0
      · rw [if_pos hrc]
        constructor
        · intro x hx
          simp only [List.mem_cons, List.not_mem_nil, or_false] at hx
          rcases hx with rfl | rfl <;> simp
        · left; simp
      · rw [if_neg hrc]
        by_cases hrem : 0 < rem
        · rw [if_pos hrem]
          constructor
          · intro x hx
            simp only [List.mem_cons] at hx
            rcases hx with rfl | rfl | hx
            · simp
            · simp
            · exact (ih (attempt + 1) _).1 x hx
          · rcases (ih (attempt + 1) _).2 with h | h
            · left; exact h
            · left; rw [h]
              simp
        · rw [if_neg hrem]
          constructor
          · intro x hx
            simp only [List.mem_cons, List.not_mem_nil, or_false] at hx
            rcases hx with rfl | rfl <;> simp
          · left; simp
    | timedOut =>
      simp only [deployLoop, hsc]
      by_cases hrem : 0 < rem
      · rw [if_pos hrem]
        constructor
        · intro x hx
          simp only [List.mem_cons] at hx
          rcases hx with rfl | hx
          · simp
          · exact (ih (attempt + 1) _).1 x hx
        · rcases (ih (attempt + 1) _).2 with h | h
          · left; exact h
          · left; rw [h]
            simp
      · rw [if_neg hrem]
        constructor
        · intro x hx
          simp only [List.mem_cons, List.not_mem_nil, or_false] at hx
          rcases hx with rfl | rfl <;> simp
        · left; simp
    | raised =>
      simp only [deployLoop, hsc]
      constructor
      · intro x hx
        simp only [List.mem_cons, List.not_mem_nil, or_false] at hx
        rcases hx with rfl | rfl <;> simp
      · left; simp

/-- As long as at least one loop iteration is permitted, the final
box has its end timestamp set. -/
lemma deployLoop_endTime (script : Nat → AttemptOutcome) :
    ∀ rem attempt b, 0 < rem →
      (deployLoop script rem attempt b).2.endTimeSet = true := by
  intro rem
  induction rem with
  | zero => intro _ _ h; omega
  | succ rem ih =>
    intro attempt b _
    cases hsc : script (attempt + 1) with
    | exited rc out err =>
      simp only [deployLoop, hsc]
      by_cases hrc : rc = 0
      · rw [if_pos hrc]
      · rw [if_neg hrc]
        by_cases hrem : 0 < rem
        · rw [if_pos hrem]
          exact ih (attempt + 1) _ hrem
        · rw [if_neg hrem]
    | timedOut =>
      simp only [deployLoop, hsc]
      by_cases hrem : 0 < rem
      · rw [if_pos hrem]
        exact ih (attempt + 1) _ hrem
      · rw [if_neg hrem]
    | raised => simp [deployLoop, hsc]

/-- The four summary counters of `print_summary` partition any list
of boxes whose statuses are all terminal. -/
lemma counts_partition (boxes : List Box)
    (h : ∀ b ∈ boxes, b.status.isTerminal = true) :
    successCount boxes + failedCount boxes + timeoutCount boxes +
      errorCount boxes = boxes.length := by
  induction boxes with
  | nil => simp [successCount, failedCount, timeoutCount, errorCount]
  | cons b bs ih =>
    have hb := h b (List.mem_cons_self b bs)
    have ihs := ih fun x hx => h x (List.mem_cons_of_mem b hx)
    unfold successCount failedCount timeoutCount errorCount at ihs ⊢
    cases hst : b.status <;>
      simp [hst, Status.isTerminal, List.filter_cons] at hb ⊢ <;>
      omega

/-- Any failing critical-stage outcome — non-zero return code,
timeout, missing playbook, or any other exception — reaches
`sys.exit(1)`. -/
lemma prepare_deployment_boxes_fatal (sp : StageOutcome)
    (h : sp ≠ .completed 0) : prepare_deployment_boxes sp = .error 1 := by
  cases sp with
  | completed rc =>
    have hrc : rc ≠ 0 := fun hrc0 => h (by rw [hrc0])
    simp [prepare_deployment_boxes, hrc]
  | stageTimedOut => rfl
  | fileNotFound => rfl
  | otherFailure => rfl

/-- When the inventory is parsed and the critical preparation stage
succeeds, the run fans out one task per target and the final box
states are the per-target loop results. -/
lemma deploy_all_boxes (ts : List (Nat → AttemptOutcome))
    (sw sk : StageOutcome) (R : Nat) :
    (deploy_all (.parsed ts) sw sk (.completed 0) R).boxes =
      ts.map fun script => (deployBox R script).2 := by
  by_cases h : ts.isEmpty
  · rw [List.isEmpty_iff] at h
    subst h
    rfl
  · simp [deploy_all, parse_inventory, prepare_deployment_boxes, h]

/-! ### The claims -/

/-- C1: for every run with `N` targets and concurrency limit `K`
(`1 ≤ K ≤ N`), at no reachable state do more than `K` targets
simultaneously hold an admission slot; moreover a target holding a
slot keeps holding it across every step except its own release, which
is exactly the step that ends its processing (and returns the slot to
the semaphore). -/
theorem claim1_admission_bound (N K : Nat) (hK1 : 1 ≤ K) (hKN : K ≤ N)
    (s : SchedState N) (hreach : SchedReachable N K s) :
    holdingCount s ≤ K ∧
      ∀ s' (i : Fin N) (k : Nat), SchedStep s s' →
        s.phase i = .holdingSlot k →
        (∃ kk, s'.phase i = .holdingSlot kk) ∨
          (s'.phase i = .finished ∧ s'.sem = s.sem + 1) := by
  constructor
  · have hinv := schedInv_reachable hreach
    unfold SchedInv at hinv
    omega
  · intro s' i k hstep hhold
    cases hstep with
    | launch j h =>
      by_cases hij : i = j
      · subst hij; rw [hhold] at h; cases h
      · exact Or.inl ⟨k, by simp [Function.update_apply, hij, hhold]⟩
    | acquire j h hs =>
      by_cases hij : i = j
      · subst hij; rw [hhold] at h; cases h
      · exact Or.inl ⟨k, by simp [Function.update_apply, hij, hhold]⟩
    | work j kk h =>
      by_cases hij : i = j
      · subst hij
        exact Or.inl ⟨kk + 1, by simp [Function.update_apply]⟩
      · exact Or.inl ⟨k, by simp [Function.update_apply, hij, hhold]⟩
    | release j kk h =>
      by_cases hij : i = j
      · subst hij
        exact Or.inr ⟨by simp [Function.update_apply], rfl⟩
      · exact Or.inl ⟨k, by simp [Function.update_apply, hij, hhold]⟩

/-- Witness for C1 at `N = 2`, `K = 1`, at the initial state. -/
theorem claim1_witness :
    holdingCount (schedInit 2 1) ≤ 1 ∧
      ∀ s' (i : Fin 2) (k : Nat), SchedStep (schedInit 2 1) s' →
        (schedInit 2 1).phase i = .holdingSlot k →
        (∃ kk, s'.phase i = .holdingSlot kk) ∨
          (s'.phase i = .finished ∧ s'.sem = (schedInit 2 1).sem + 1) :=
  claim1_admission_bound 2 1 (by decide) (by decide) (schedInit 2 1)
    Relation.ReflTransGen.refl

/-- C2 counterexample: with the configured max retries equal to 0
(the CLI accepts `--retries 0`), the retry loop never runs, so after
the join barrier the single target still has the non-terminal status
`"pending"` and the four summary counts sum to 0, not N = 1. -/
theorem claim2_counterexample :
    ¬ ((∀ b ∈ (deploy_all (.parsed [fun _ => .exited 1 [] [""]])
          (.completed 0) (.completed 0) (.completed 0) 0).boxes,
          b.status.isTerminal = true) ∧
        successCount (deploy_all (.parsed [fun _ => .exited 1 [] [""]])
            (.completed 0) (.completed 0) (.completed 0) 0).boxes +
          failedCount (deploy_all (.parsed [fun _ => .exited 1 [] [""]])
            (.completed 0) (.completed 0) (.completed 0) 0).boxes +
          timeoutCount (deploy_all (.parsed [fun _ => .exited 1 [] [""]])
            (.completed 0) (.completed 0) (.completed 0) 0).boxes +
          errorCount (deploy_all (.parsed [fun _ => .exited 1 [] [""]])
            (.completed 0) (.completed 0) (.completed 0) 0).boxes = 1) := by
  decide

/-- C2 (amended: provided the configured max retries is at least 1):
after the join barrier of a completed run every target's status is
terminal — one of success, failed, timeout, error — and the four
summary counts sum to the number of targets. -/
theorem claim2_terminal_and_counts (ts : List (Nat → AttemptOutcome))
    (sw sk : StageOutcome) (R : Nat) (hR : 1 ≤ R) :
    (∀ b ∈ (deploy_all (.parsed ts) sw sk (.completed 0) R).boxes,
        b.status.isTerminal = true) ∧
      successCount (deploy_all (.parsed ts) sw sk (.completed 0) R).boxes +
        failedCount (deploy_all (.parsed ts) sw sk (.completed 0) R).boxes +
        timeoutCount (deploy_all (.parsed ts) sw sk (.completed 0) R).boxes +
        errorCount (deploy_all (.parsed ts) sw sk (.completed 0) R).boxes =
        ts.length := by
  rw [deploy_all_boxes]
  have hterm : ∀ b ∈ ts.map fun script => (deployBox R script).2,
      b.status.isTerminal = true := by
    intro b hb
    obtain ⟨script, _, rfl⟩ := List.mem_map.mp hb
    exact deployLoop_terminal script R 0 _ hR
  refine ⟨hterm, ?_⟩
  rw [counts_partition _ hterm, List.length_map]

/-- Witness for C2 at one always-succeeding target and max retries
3. -/
theorem claim2_witness :
    (∀ b ∈ (deploy_all (.parsed [fun _ => .exited 0 ["done"] []])
        (.completed 0) (.completed 0) (.completed 0) 3).boxes,
        b.status.isTerminal = true) ∧
      successCount (deploy_all (.parsed [fun _ => .exited 0 ["done"] []])
          (.completed 0) (.completed 0) (.completed 0) 3).boxes +
        failedCount (deploy_all (.parsed [fun _ => .exited 0 ["done"] []])
          (.completed 0) (.completed 0) (.completed 0) 3).boxes +
        timeoutCount (deploy_all (.parsed [fun _ => .exited 0 ["done"] []])
          (.completed 0) (.completed 0) (.completed 0) 3).boxes +
        errorCount (deploy_all (.parsed [fun _ => .exited 0 ["done"] []])
          (.completed 0) (.completed 0) (.completed 0) 3).boxes = 1 :=
  claim2_terminal_and_counts [fun _ => .exited 0 ["done"] []]
    (.completed 0) (.completed 0) 3 (by decide)

/-- C3 counterexample: with max retries 0 an always-failing target is
attempted 0 times and stays `"pending"` — it never reaches
`"failed"`. -/
theorem claim3_counterexample :
    (deployBox 0 (fun _ => .exited 1 [] ["boom"])).2.status = .pending ∧
      ¬ (deployBox 0 (fun _ => .exited 1 [] ["boom"])).2.status = .failed := by
  decide

/-- C3 (amended: provided the configured max retries `R` is at least
1): a target whose remote job exits non-zero on every attempt is
attempted exactly `R` times and ends with status `"failed"`. -/
theorem claim3_always_fail (R : Nat) (script : Nat → AttemptOutcome)
    (hR : 1 ≤ R)
    (hf : ∀ i, ∃ rc out err, script i = .exited rc out err ∧ rc ≠ 0) :
    (deployBox R script).2.attempts = R ∧
      (deployBox R script).2.status = .failed := by
  have h := deployLoop_allFail script hf R 0
    { initBox with logFileSet := true } hR
  unfold deployBox
  exact ⟨by rw [h.1]; omega, h.2⟩

/-- Witness for C3 at `R = 2` and every attempt exiting 1. -/
theorem claim3_witness :
    (deployBox 2 (fun _ => .exited 1 [] ["boom"])).2.attempts = 2 ∧
      (deployBox 2 (fun _ => .exited 1 [] ["boom"])).2.status = .failed :=
  claim3_always_fail 2 (fun _ => .exited 1 [] ["boom"]) (by decide)
    fun _ => ⟨1, [], ["boom"], rfl, by decide⟩

/-- C4 counterexample: with max retries 0 an always-timing-out target
is attempted 0 times and stays `"pending"` — it never reaches
`"timeout"`. -/
theorem claim4_counterexample :
    (deployBox 0 (fun _ => .timedOut)).2.status = .pending ∧
      ¬ (deployBox 0 (fun _ => .timedOut)).2.status = .timedout := by
  decide

/-- C4 (amended: provided the configured max retries `R` is at least
1): a target whose remote job raises a timeout on every attempt is
attempted exactly `R` times and ends with status `"timeout"`, never
`"failed"`. -/
theorem claim4_always_timeout (R : Nat) (script : Nat → AttemptOutcome)
    (hR : 1 ≤ R) (hf : ∀ i, script i = .timedOut) :
    (deployBox R script).2.attempts = R ∧
      (deployBox R script).2.status = .timedout ∧
      ¬ (deployBox R script).2.status = .failed := by
  have h := deployLoop_allTimeout script hf R 0
    { initBox with logFileSet := true } hR
  unfold deployBox
  refine ⟨by rw [h.1]; omega, h.2, ?_⟩
  rw [h.2]
  simp

/-- Witness for C4 at `R = 2` and every attempt timing out. -/
theorem claim4_witness :
    (deployBox 2 (fun _ => .timedOut)).2.attempts = 2 ∧
      (deployBox 2 (fun _ => .timedOut)).2.status = .timedout ∧
      ¬ (deployBox 2 (fun _ => .timedOut)).2.status = .failed :=
  claim4_always_timeout 2 (fun _ => .timedOut) (by decide) fun _ => rfl

/-- C5: a target whose first attempt raises an unexpected invocation
error (any exception other than the timeout) is attempted exactly
once — never retried — and ends with status `"error"`, whatever the
configured max retries (any `R ≥ 1`; the hypothesis that the first
attempt happens requires one attempt to be permitted). -/
theorem claim5_invocation_fatal (R : Nat) (script : Nat → AttemptOutcome)
    (hR : 1 ≤ R) (h1 : script 1 = .raised) :
    (deployBox R script).2.attempts = 1 ∧
      (deployBox R script).2.status = .errored := by
  have h := deployLoop_raisedFirst script R 0
    { initBox with logFileSet := true } h1 hR
  unfold deployBox
  exact ⟨h.1, h.2⟩

/-- Witness for C5 at `R = 7`. -/
theorem claim5_witness :
    (deployBox 7 (fun _ => .raised)).2.attempts = 1 ∧
      (deployBox 7 (fun _ => .raised)).2.status = .errored :=
  claim5_invocation_fatal 7 (fun _ => .raised) (by decide) rfl

/-- C6 counterexample: a run with max retries 2 whose attempts all
exit non-zero retries (final attempt count is 2, so attempt 1 ended
non-zero with `attempts < R`), yet no state in the whole run — not
even the state between the failed attempt and the next — ever has
status `"retrying"`: the script never assigns it, the status simply
stays `"running"`. -/
theorem claim6_counterexample :
    (deployBox 2 (fun _ => .exited 1 [] ["e"])).2.attempts = 2 ∧
      Status.retrying ∉
        ((deployBox 2 (fun _ => .exited 1 [] ["e"])).1.map Box.status) ∧
      ((deployBox 2 (fun _ => .exited 1 [] ["e"])).1.map Box.status) =
        [.running, .running, .running, .failed] := by
  decide

/-- C6 (amended): the status `"retrying"` never occurs, at any point
of any target's run; after a non-zero exit with attempts remaining
the status simply stays `"running"` until the next attempt
re-enters it. -/
theorem claim6_no_retrying (R : Nat) (script : Nat → AttemptOutcome) :
    (∀ x ∈ (deployBox R script).1, x.status ≠ Status.retrying) ∧
      (deployBox R script).2.status ≠ Status.retrying := by
  unfold deployBox
  rcases deployLoop_no_retry script R 0
    { initBox with logFileSet := true } with ⟨h1, h2⟩
  refine ⟨h1, ?_⟩
  rcases h2 with h | h
  · exact h
  · rw [h]
    simp [initBox]

/-- C7 counterexample: in a run with max retries 2 whose first
attempt exits non-zero, the snapshot recorded after that attempt has
`end_time` set (line 448 sets it on every completed attempt) while
the status is still the non-terminal `"running"` — so mid-run,
`endedAt` being set does not imply a terminal status. -/
theorem claim7_counterexample :
    ¬ (∀ x ∈ (deployBox 2 (fun _ => .exited 1 [] ["e"])).1,
        x.endTimeSet = x.status.isTerminal) := by
  decide

/-- C7 (amended): the equivalence between `endedAt` being set and the
status being terminal holds at the end of the target's task (for
every configured max retries, including 0), but not at every
intermediate point. -/
theorem claim7_end_time_terminal (R : Nat) (script : Nat → AttemptOutcome) :
    (deployBox R script).2.endTimeSet =
      ((deployBox R script).2.status).isTerminal := by
  cases R with
  | zero => rfl
  | succ R =>
    unfold deployBox
    rw [deployLoop_endTime script (R + 1) 0 _ (Nat.succ_pos R),
      deployLoop_terminal script (R + 1) 0 _ (Nat.succ_pos R)]

/-- C8: if the critical preparation pre-stage exits non-zero, times
out, or cannot be invoked (missing playbook or any other invocation
exception) — i.e. any outcome other than exit code 0 — then the
process exits with a non-zero code and no target task is ever
started. -/
theorem claim8_critical_aborts (ts : List (Nat → AttemptOutcome))
    (sw sk sp : StageOutcome) (R : Nat)
    (hts : ts ≠ []) (hsp : sp ≠ .completed 0) :
    (deploy_all (.parsed ts) sw sk sp R).exitCode ≠ 0 ∧
      (deploy_all (.parsed ts) sw sk sp R).boxes = [] := by
  have hp := prepare_deployment_boxes_fatal sp hsp
  have hem : ts.isEmpty = false := by
    simpa [List.isEmpty_iff] using hts
  simp [deploy_all, parse_inventory, hp, hem]

/-- Witness for C8: one target, critical stage times out. -/
theorem claim8_witness :
    (deploy_all (.parsed [fun _ => .exited 0 [] []]) (.completed 0)
        (.completed 0) .stageTimedOut 3).exitCode ≠ 0 ∧
      (deploy_all (.parsed [fun _ => .exited 0 [] []]) (.completed 0)
        (.completed 0) .stageTimedOut 3).boxes = [] :=
  claim8_critical_aborts [fun _ => .exited 0 [] []] (.completed 0)
    (.completed 0) .stageTimedOut 3 (by simp) (by decide)

/-- C9 counterexample: when the inventory file cannot be read,
`parse_inventory` calls `sys.exit(1)` — the process exit code is
non-zero even though every pre-stage outcome here is a success
(exit code 0), refuting "the exit code is non-zero only if a
critical pre-stage fails, times out, or cannot be invoked". -/
theorem claim9_counterexample :
    (deploy_all .fileNotFound (.completed 0) (.completed 0)
      (.completed 0) 3).exitCode = 1 := rfl

/-- C9 (amended): the process exit code is 0 if and only if the
inventory was read and parsed successfully and either no targets were
found or the critical preparation stage exited 0; it does not depend
on the individual targets' outcomes (the retry bound and the attempt
scripts do not occur in the right-hand side), but it is also
non-zero when the inventory cannot be read or parsed. -/
theorem claim9_exit_code (inv : InventoryOutcome) (sw sk sp : StageOutcome)
    (R : Nat) :
    (deploy_all inv sw sk sp R).exitCode = 0 ↔
      ∃ ts, inv = .parsed ts ∧ (ts = [] ∨ sp = .completed 0) := by
  cases inv with
  | parsed ts =>
    constructor
    · intro h
      refine ⟨ts, rfl, ?_⟩
      by_cases hts : ts.isEmpty
      · exact Or.inl (List.isEmpty_iff.mp hts)
      · right
        by_contra hsp
        have hp := prepare_deployment_boxes_fatal sp hsp
        simp [deploy_all, parse_inventory, hp, hts] at h
    · rintro ⟨ts', hts', h⟩
      injection hts' with hts'
      subst hts'
      rcases h with rfl | rfl
      · simp [deploy_all, parse_inventory]
      · by_cases hts : ts.isEmpty
        · simp [deploy_all, parse_inventory, hts]
        · simp [deploy_all, parse_inventory, prepare_deployment_boxes, hts]
  | fileNotFound => simp [deploy_all, parse_inventory]
  | parseFailure => simp [deploy_all, parse_inventory]

/-- C10 counterexample: a completed run with one target that always
times out lists that target in the failure digest, but with no error
preview at all — `error_output` is only assigned on a non-zero exit
(line 458), never in the timeout path, and `print_summary` prints
the preview only when `error_output` is non-empty — refuting "lists
every non-success terminal target with ... the first line of its
captured error output". -/
theorem claim10_counterexample :
    ∃ e ∈ failureDigest (deploy_all (.parsed [fun _ => .timedOut])
        (.completed 0) (.completed 0) (.completed 0) 1).boxes,
      e.errorPreview = none := by
  decide

/-- C10 (amended): the end-of-run digest lists every non-success
terminal target with its status, attempt count and log file path
(the log file is always set for a started target), and with the
first line of its captured error output truncated to 100 characters
exactly when some error output was captured (that is, some attempt
completed with a non-zero exit code; a target that only ever timed
out or errored has no preview). -/
theorem claim10_digest (ts : List (Nat → AttemptOutcome))
    (sw sk : StageOutcome) (R : Nat) (b : Box)
    (hb : b ∈ (deploy_all (.parsed ts) sw sk (.completed 0) R).boxes)
    (hst : b.status = .failed ∨ b.status = .timedout ∨ b.status = .errored) :
    b.logFileSet = true ∧
      (⟨b.status, b.attempts, firstErrorLine b, true⟩ : DigestEntry) ∈
        failureDigest (deploy_all (.parsed ts) sw sk (.completed 0) R).boxes ∧
      (firstErrorLine b = none ↔ b.errorOutput = []) := by
  have hlog : b.logFileSet = true := by
    rw [deploy_all_boxes] at hb
    obtain ⟨script, _, rfl⟩ := List.mem_map.mp hb
    unfold deployBox
    rw [deployLoop_logFile]
  refine ⟨hlog, ?_, ?_⟩
  · have hmem : b ∈ (deploy_all (.parsed ts) sw sk (.completed 0) R).boxes.filter
        (fun x => x.status = .failed ∨ x.status = .timedout ∨
          x.status = .errored) :=
      List.mem_filter.mpr ⟨hb, decide_eq_true hst⟩
    have hpos : 0 < failedCount (deploy_all (.parsed ts) sw sk
          (.completed 0) R).boxes +
        timeoutCount (deploy_all (.parsed ts) sw sk (.completed 0) R).boxes +
        errorCount (deploy_all (.parsed ts) sw sk (.completed 0) R).boxes := by
      rcases hst with h | h | h
      · have hm : b ∈ (deploy_all (.parsed ts) sw sk (.completed 0) R).boxes.filter
            (fun x => x.status = .failed) :=
          List.mem_filter.mpr ⟨hb, decide_eq_true h⟩
        have := List.length_pos_of_mem hm
        unfold failedCount
        omega
      · have hm : b ∈ (deploy_all (.parsed ts) sw sk (.completed 0) R).boxes.filter
            (fun x => x.status = .timedout) :=
          List.mem_filter.mpr ⟨hb, decide_eq_true h⟩
        have := List.length_pos_of_mem hm
        unfold timeoutCount
        omega
      · have hm : b ∈ (deploy_all (.parsed ts) sw sk (.completed 0) R).boxes.filter
            (fun x => x.status = .errored) :=
          List.mem_filter.mpr ⟨hb, decide_eq_true h⟩
        have := List.length_pos_of_mem hm
        unfold errorCount
        omega
    unfold failureDigest
    rw [if_pos hpos, ← hlog]
    exact List.mem_map_of_mem _ hmem
  · cases herr : b.errorOutput with
    | nil => simp [firstErrorLine, herr]
    | cons l rest => simp [firstErrorLine, herr]

/-- Witness for C10: one target, max retries 1, the single attempt
exits 1 with two lines of stderr. -/
theorem claim10_witness :
    (deployBox 1 (fun _ => .exited 1 [] ["E1", "E2"])).2.logFileSet = true ∧
      (⟨(deployBox 1 (fun _ => .exited 1 [] ["E1", "E2"])).2.status,
        (deployBox 1 (fun _ => .exited 1 [] ["E1", "E2"])).2.attempts,
        firstErrorLine (deployBox 1 (fun _ => .exited 1 [] ["E1", "E2"])).2,
        true⟩ : DigestEntry) ∈
        failureDigest (deploy_all
          (.parsed [fun _ => .exited 1 [] ["E1", "E2"]])
          (.completed 0) (.completed 0) (.completed 0) 1).boxes ∧
      (firstErrorLine (deployBox 1 (fun _ => .exited 1 [] ["E1", "E2"])).2 =
          none ↔
        (deployBox 1 (fun _ => .exited 1 [] ["E1", "E2"])).2.errorOutput =
          []) :=
  claim10_digest [fun _ => .exited 1 [] ["E1", "E2"]] (.completed 0)
    (.completed 0) 1 ((deployBox 1 (fun _ => .exited 1 [] ["E1", "E2"])).2)
    (by decide) (by decide)

end GoadDeploy
